import Mathlib

/-!
Shallow embedding of the trap/exception/syscall dispatch layer of a small
protected-mode teaching kernel (kern/trap.c).  Pure functions of the source
become Lean functions; the stateful top-level entry becomes explicit state
passing over a `Machine` record; diagnostic output becomes a list of `Event`s;
the non-returning `panic`/`assert` paths become explicit `Halt` outcomes.
Machine integers are `Nat` with explicit `% 2^32` where overflow matters.
-/

namespace Trap

/-! ## Constants from inc/trap.h, inc/memlayout.h and inc/mmu.h -/

def T_DIVIDE : Nat := 0
def T_DEBUG : Nat := 1
def T_NMI : Nat := 2
def T_BRKPT : Nat := 3
def T_OFLOW : Nat := 4
def T_BOUND : Nat := 5
def T_ILLOP : Nat := 6
def T_DEVICE : Nat := 7
def T_DBLFLT : Nat := 8
def T_TSS : Nat := 10
def T_SEGNP : Nat := 11
def T_STACK : Nat := 12
def T_GPFLT : Nat := 13
def T_PGFLT : Nat := 14
def T_FPERR : Nat := 16
def T_ALIGN : Nat := 17
def T_MCHK : Nat := 18
def T_SIMDERR : Nat := 19
def T_SYSCALL : Nat := 48

/-- Kernel code segment selector GD_KT = 0x08. -/
def GD_KT : Nat := 8

/-- Interrupt-enable bit of the eflags register, FL_IF = 0x200. -/
def FL_IF : Nat := 512

/-- Process status value meaning "currently running" (ENV_RUNNING). -/
def ENV_RUNNING : Nat := 3

/-! ## Exception catalog (trapname) -/

/-- The static `excnames` table of `trapname`, in source order. -/
def excnames : List String :=
  ["Divide error",
   "Debug",
   "Non-Maskable Interrupt",
   "Breakpoint",
   "Overflow",
   "BOUND Range Exceeded",
   "Invalid Opcode",
   "Device Not Available",
   "Double Fault",
   "Coprocessor Segment Overrun",
   "Invalid TSS",
   "Segment Not Present",
   "Stack Fault",
   "General Protection",
   "Page Fault",
   "(unknown trap)",
   "x87 FPU Floating-Point Error",
   "Alignment Check",
   "Machine-Check",
   "SIMD Floating-Point Exception"]

/-- `trapname(trapno)`: catalog entry when inside the table, the syscall name
for the syscall vector, and the unknown fallback otherwise. -/
def trapname (trapno : Nat) : String :=
  if trapno < excnames.length then excnames.getD trapno "(unknown trap)"
  else if trapno = T_SYSCALL then "System call"
  else "(unknown trap)"

/-! ## Gate table (IDT) construction -/

/-- One IDT slot, the fields SETGATE fills (gd_p is the present bit; the
zero-initialised table has gd_p = false). -/
structure Gatedesc where
  gd_off : Nat
  gd_sel : Nat
  gd_istrap : Nat
  gd_dpl : Nat
  gd_p : Bool
  deriving DecidableEq

/-- The zero-initialised `idt[256]`, extended to all indices. -/
def idt0 : Nat → Gatedesc :=
  fun _ => { gd_off := 0, gd_sel := 0, gd_istrap := 0, gd_dpl := 0, gd_p := false }

/-- Entry stubs (trap_0, trap_1, ...) are opaque distinct addresses; they are
represented by their vector number. -/
def trapStub (n : Nat) : Nat := n

/-- Arguments of one SETGATE invocation in `trap_init`. -/
structure GateInstall where
  vec : Nat
  istrap : Nat
  sel : Nat
  off : Nat
  dpl : Nat
  deriving DecidableEq

/-- SETGATE(idt[c.vec], c.istrap, c.sel, c.off, c.dpl): in-place update of one
slot, setting the present bit. -/
def SETGATE (t : Nat → Gatedesc) (c : GateInstall) : Nat → Gatedesc :=
  fun i =>
    if i = c.vec then
      { gd_off := c.off, gd_sel := c.sel, gd_istrap := c.istrap,
        gd_dpl := c.dpl, gd_p := true }
    else t i

/-- The SETGATE calls of `trap_init`, in source order. -/
def setgateCalls : List GateInstall :=
  [⟨T_DIVIDE, 0, GD_KT, trapStub 0, 0⟩,
   ⟨T_DEBUG, 0, GD_KT, trapStub 1, 0⟩,
   ⟨T_NMI, 0, GD_KT, trapStub 2, 0⟩,
   ⟨T_BRKPT, 0, GD_KT, trapStub 3, 3⟩,
   ⟨T_OFLOW, 0, GD_KT, trapStub 4, 0⟩,
   ⟨T_BOUND, 0, GD_KT, trapStub 5, 0⟩,
   ⟨T_ILLOP, 0, GD_KT, trapStub 6, 0⟩,
   ⟨T_DEVICE, 0, GD_KT, trapStub 7, 0⟩,
   ⟨T_DBLFLT, 0, GD_KT, trapStub 8, 0⟩,
   ⟨T_TSS, 0, GD_KT, trapStub 10, 0⟩,
   ⟨T_SEGNP, 0, GD_KT, trapStub 11, 0⟩,
   ⟨T_STACK, 0, GD_KT, trapStub 12, 0⟩,
   ⟨T_GPFLT, 0, GD_KT, trapStub 13, 0⟩,
   ⟨T_PGFLT, 0, GD_KT, trapStub 14, 0⟩,
   ⟨T_FPERR, 0, GD_KT, trapStub 16, 0⟩,
   ⟨T_ALIGN, 0, GD_KT, trapStub 17, 0⟩,
   ⟨T_MCHK, 0, GD_KT, trapStub 18, 0⟩,
   ⟨T_SIMDERR, 0, GD_KT, trapStub 19, 0⟩,
   ⟨T_SYSCALL, 0, GD_KT, trapStub 48, 3⟩]

/-- `trap_init`: applies the SETGATE calls to the zeroed table.  (The
per-CPU hardware loading step, trap_init_percpu, touches only CPU registers
and is outside the shallow embedding.) -/
def trap_init : Nat → Gatedesc :=
  setgateCalls.foldl SETGATE idt0

/-- The fixed vector namespace: the vectors that have dedicated entry stubs
(trap_0 .. trap_19 excluding the reserved 9 and 15) plus the syscall vector. -/
def fixedNamespace : List Nat :=
  [0, 1, 2, 3, 4, 5, 6, 7, 8, 10, 11, 12, 13, 14, 16, 17, 18, 19, 48]

/-! ## Saved trap frame -/

/-- struct PushRegs: the pusha-order general register snapshot. -/
structure PushRegs where
  reg_edi : Nat
  reg_esi : Nat
  reg_ebp : Nat
  reg_oesp : Nat
  reg_ebx : Nat
  reg_edx : Nat
  reg_ecx : Nat
  reg_eax : Nat
  deriving DecidableEq

/-- struct Trapframe: the complete machine state saved at the trap. -/
structure Trapframe where
  tf_regs : PushRegs
  tf_es : Nat
  tf_ds : Nat
  tf_trapno : Nat
  tf_err : Nat
  tf_eip : Nat
  tf_cs : Nat
  tf_eflags : Nat
  tf_esp : Nat
  tf_ss : Nat
  deriving DecidableEq

/-- A process/environment record: id, saved-frame slot, status.  Only the
fields this core touches are modelled; the lifecycle lives in a collaborator. -/
structure Env where
  env_id : Nat
  env_tf : Trapframe
  env_status : Nat
  deriving DecidableEq

/-! ## Diagnostic output and halting -/

/-- Observable diagnostic actions of the dispatch layer (the cprintf /
print_trapframe / monitor calls, plus the env_destroy request). -/
inductive Event where
  | incomingTrap
  | monitorEnter (tf : Trapframe)
  | userFaultLog (envId : Nat) (va : Nat) (ip : Nat)
  | printTrapframe (tf : Trapframe)
  | destroyEnv (envId : Nat)
  deriving DecidableEq

/-- Which internal-consistency assertion fired. -/
inductive AssertId where
  | interruptsOn
  | curenvNull
  | noRunningEnv
  deriving DecidableEq

/-- Non-returning exits: a failed assert or an explicit panic. -/
inductive Halt where
  | assertFail (a : AssertId)
  | panic (msg : String)
  deriving DecidableEq

/-- What a handler did to the world: diagnostics emitted, the (possibly
mutated) frame, whether env_destroy(curenv) was requested, and whether a
panic was reached (in which case nothing after it runs). -/
structure DispatchResult where
  events : List Event
  tf : Trapframe
  destroyed : Bool
  panicMsg : Option String
  deriving DecidableEq

/-! ## Syscall bridge -/

/-- Truncation of the signed 32-bit syscall return value into the 32-bit
eax slot (two's complement store). -/
def int32ToReg (i : Int) : Nat := (i % (2 ^ 32 : Int)).toNat

/-- `syscall_handler(tf)`: reads the number from eax and the five arguments
from edx, ecx, ebx, edi, esi, invokes the external syscall implementation,
and stores the signed result back into eax. -/
def syscall_handler (sys : Nat → Nat → Nat → Nat → Nat → Nat → Int)
    (tf : Trapframe) : Trapframe :=
  let num := tf.tf_regs.reg_eax
  let a1 := tf.tf_regs.reg_edx
  let a2 := tf.tf_regs.reg_ecx
  let a3 := tf.tf_regs.reg_ebx
  let a4 := tf.tf_regs.reg_edi
  let a5 := tf.tf_regs.reg_esi
  let sys_ret : Int := sys num a1 a2 a3 a4 a5
  { tf with tf_regs := { tf.tf_regs with reg_eax := int32ToReg sys_ret } }

/-! ## Page fault handler -/

/-- `page_fault_handler(tf)`: reads the faulting address from the CPU
fault-address register (cr2); a fault with kernel privilege bits in the saved
code segment panics at once, a user fault logs id/address/ip, prints the
frame and destroys the faulting process. -/
def page_fault_handler (cr2 : Nat) (envId : Nat) (tf : Trapframe) :
    DispatchResult :=
  let fault_va := cr2
  if tf.tf_cs % 4 = 0 then
    { events := [], tf := tf, destroyed := false,
      panicMsg := some "Kernel page fault" }
  else
    { events := [Event.userFaultLog envId fault_va tf.tf_eip,
                 Event.printTrapframe tf, Event.destroyEnv envId],
      tf := tf, destroyed := true, panicMsg := none }

/-! ## Trap dispatcher -/

/-- `trap_dispatch(tf)`: routes breakpoint to the monitor, page fault to the
page fault handler, syscall to the syscall bridge; any other vector prints the
frame and then panics when the saved code segment equals the kernel code
selector GD_KT, else destroys the owning process and returns. -/
def trap_dispatch (sys : Nat → Nat → Nat → Nat → Nat → Nat → Int)
    (cr2 : Nat) (envId : Nat) (tf : Trapframe) : DispatchResult :=
  if tf.tf_trapno = T_BRKPT then
    { events := [Event.monitorEnter tf], tf := tf, destroyed := false,
      panicMsg := none }
  else if tf.tf_trapno = T_PGFLT then
    page_fault_handler cr2 envId tf
  else if tf.tf_trapno = T_SYSCALL then
    { events := [], tf := syscall_handler sys tf, destroyed := false,
      panicMsg := none }
  else if tf.tf_cs = GD_KT then
    { events := [Event.printTrapframe tf], tf := tf, destroyed := false,
      panicMsg := some "unhandled trap in kernel" }
  else
    { events := [Event.printTrapframe tf, Event.destroyEnv envId], tf := tf,
      destroyed := true, panicMsg := none }

/-! ## Top-level trap entry -/

/-- Which saved frame a pointer refers to: the transient privileged-stack
frame passed in, or the persistent copy inside the current process record. -/
inductive TfRef where
  | stackFrame
  | envFrame
  deriving DecidableEq

/-- Process-wide state the trap entry reads and writes: the current process,
the last-seen-frame reference (the static last_tf), the live CPU eflags at
entry, and the fault-address register cr2. -/
structure Machine where
  curenv : Option Env
  last_tf : Option TfRef
  eflags : Nat
  cr2 : Nat
  deriving DecidableEq

/-- State just before dispatch: the machine after the frame-ownership step,
which frame dispatch will operate on, its value, and the current env id. -/
structure EntryState where
  machine : Machine
  tfRef : TfRef
  dispatchTf : Trapframe
  envId : Nat
  deriving DecidableEq

/-- How the top-level entry relinquishes the CPU. -/
inductive TrapOutcome where
  | halted (h : Halt)
  | resumed (e : Env)
  | scheduled
  deriving DecidableEq

/-- Result of one run of the top-level trap entry. -/
structure TrapResult where
  outcome : TrapOutcome
  machine : Machine
  events : List Event
  deriving DecidableEq

/-- Steps (a)-(b) of `trap(tf)`: assert interrupts disabled, and for a frame
arriving from user privilege copy it into curenv->env_tf and redirect tf to
that persistent copy; then record last_tf. -/
def trap_entry (m : Machine) (tf0 : Trapframe) : Sum Halt EntryState :=
  if m.eflags &&& FL_IF ≠ 0 then
    Sum.inl (Halt.assertFail AssertId.interruptsOn)
  else if tf0.tf_cs % 4 = 3 then
    match m.curenv with
    | none => Sum.inl (Halt.assertFail AssertId.curenvNull)
    | some e =>
      let e1 := { e with env_tf := tf0 }
      Sum.inr { machine := { m with curenv := some e1,
                                    last_tf := some TfRef.envFrame },
                tfRef := TfRef.envFrame, dispatchTf := e1.env_tf,
                envId := e1.env_id }
  else
    Sum.inr { machine := { m with last_tf := some TfRef.stackFrame },
              tfRef := TfRef.stackFrame, dispatchTf := tf0,
              envId := (m.curenv.map Env.env_id).getD 0 }

/-- `trap(tf)`: entry protocol, dispatch, then resume.  env_destroy is the
process-lifecycle collaborator, not part of this unit.  Modelled from the
spec: terminate(ProcessHandle) destroys the owning process and the kernel
continues serving other processes, so a dispatch that destroyed the current
process hands control to the scheduler (`scheduled`) instead of resuming the
destroyed process; otherwise trap asserts a running current process and
resumes it (env_run). -/
def trap (sys : Nat → Nat → Nat → Nat → Nat → Nat → Int)
    (m : Machine) (tf0 : Trapframe) : TrapResult :=
  match trap_entry m tf0 with
  | Sum.inl h => { outcome := TrapOutcome.halted h, machine := m, events := [] }
  | Sum.inr s =>
    let d := trap_dispatch sys s.machine.cr2 s.envId s.dispatchTf
    let m2 :=
      match s.tfRef, s.machine.curenv with
      | TfRef.envFrame, some e =>
        { s.machine with curenv := some { e with env_tf := d.tf } }
      | _, _ => s.machine
    let evs := Event.incomingTrap :: d.events
    match d.panicMsg with
    | some msg =>
      { outcome := TrapOutcome.halted (Halt.panic msg), machine := m2,
        events := evs }
    | none =>
      if d.destroyed then
        { outcome := TrapOutcome.scheduled,
          machine := { m2 with curenv := none }, events := evs }
      else
        match m2.curenv with
        | none =>
          { outcome := TrapOutcome.halted (Halt.assertFail AssertId.noRunningEnv),
            machine := m2, events := evs }
        | some e =>
          if e.env_status = ENV_RUNNING then
            { outcome := TrapOutcome.resumed e, machine := m2, events := evs }
          else
            { outcome := TrapOutcome.halted (Halt.assertFail AssertId.noRunningEnv),
              machine := m2, events := evs }

/-! ## Concrete fixtures used by witnesses and counterexamples -/

/-- All-zero register snapshot. -/
def regs0 : PushRegs :=
  { reg_edi := 0, reg_esi := 0, reg_ebp := 0, reg_oesp := 0,
    reg_ebx := 0, reg_edx := 0, reg_ecx := 0, reg_eax := 0 }

/-- A user-mode frame template (user code selector 0x1b, user data 0x23). -/
def baseUserTf : Trapframe :=
  { tf_regs := regs0, tf_es := 35, tf_ds := 35, tf_trapno := 0, tf_err := 0,
    tf_eip := 0, tf_cs := 27, tf_eflags := 512, tf_esp := 0, tf_ss := 35 }

/-- A kernel-mode frame template (kernel code selector GD_KT = 0x08). -/
def baseKernTf : Trapframe :=
  { tf_regs := regs0, tf_es := 16, tf_ds := 16, tf_trapno := 0, tf_err := 0,
    tf_eip := 0, tf_cs := 8, tf_eflags := 0, tf_esp := 0, tf_ss := 16 }

/-- A syscall implementation that always returns 0. -/
def sys0 : Nat → Nat → Nat → Nat → Nat → Nat → Int := fun _ _ _ _ _ _ => 0

/-- A syscall implementation that always returns 30 (the spec scenario). -/
def sys30 : Nat → Nat → Nat → Nat → Nat → Nat → Int := fun _ _ _ _ _ _ => 30

/-- A running user environment holding a copy of the user frame template. -/
def env1 : Env := { env_id := 4096, env_tf := baseUserTf, env_status := ENV_RUNNING }

/-- Machine state with interrupts disabled and env1 current. -/
def mach1 : Machine := { curenv := some env1, last_tf := none, eflags := 0, cr2 := 0 }

/-! ## Theorems -/

/-- C9: the exception-name catalog lookup is a total function: the catalog
entry for numbers inside the catalog range, the syscall name for the syscall
vector, and the unknown fallback for every other value (values above the
range included). -/
theorem trapname_total (n : Nat) :
    (n < excnames.length → trapname n = excnames.getD n "(unknown trap)") ∧
    (n = T_SYSCALL → trapname n = "System call") ∧
    (excnames.length ≤ n → n ≠ T_SYSCALL → trapname n = "(unknown trap)") := by
  refine ⟨fun h => ?_, fun h => ?_, fun h1 h2 => ?_⟩
  · simp [trapname, h]
  · subst h; simp [trapname, T_SYSCALL, excnames]
  · simp [trapname, Nat.not_lt.mpr h1, h2]

/-- Witness for C9 at trap numbers 5 (in range), 48 (syscall) and 100
(above the range). -/
theorem trapname_total_witness :
    trapname 5 = List.getD excnames 5 "(unknown trap)" ∧
    trapname 48 = "System call" ∧
    trapname 100 = "(unknown trap)" :=
  ⟨(trapname_total 5).1 (by decide),
   (trapname_total 48).2.1 rfl,
   (trapname_total 100).2.2 (by decide) (by decide)⟩

/-- C3: every vector of the fixed namespace gets exactly one SETGATE call;
its installed gate is present with the kernel code selector, privilege level
3 exactly for the breakpoint and syscall vectors and 0 for all others; and
no SETGATE call targets a vector outside the namespace. -/
theorem trap_init_gate_table :
    (∀ v ∈ fixedNamespace,
      setgateCalls.countP (fun c => c.vec == v) = 1 ∧
      (trap_init v).gd_p = true ∧
      (trap_init v).gd_sel = GD_KT ∧
      (trap_init v).gd_dpl = (if v = T_BRKPT ∨ v = T_SYSCALL then 3 else 0)) ∧
    (∀ c ∈ setgateCalls, c.vec ∈ fixedNamespace) := by
  decide

/-- Witness for C3 at the breakpoint, page-fault and syscall vectors. -/
theorem trap_init_gate_table_witness :
    (trap_init T_BRKPT).gd_dpl = 3 ∧ (trap_init T_PGFLT).gd_dpl = 0 ∧
    (trap_init T_SYSCALL).gd_dpl = 3 ∧ (trap_init T_SYSCALL).gd_p = true := by
  have hb := (trap_init_gate_table.1 T_BRKPT (by decide)).2.2.2
  have hp := (trap_init_gate_table.1 T_PGFLT (by decide)).2.2.2
  have hs := trap_init_gate_table.1 T_SYSCALL (by decide)
  refine ⟨by simpa using hb, by simpa [T_PGFLT, T_BRKPT, T_SYSCALL] using hp,
    by simpa using hs.2.2.2, hs.2.1⟩

/-- C5: a syscall trap routes to the syscall bridge, which reads the number
from eax, the arguments from edx, ecx, ebx, edi, esi in that order, stores the
signed 32-bit result into eax, and leaves every other slot and frame field
unchanged. -/
theorem syscall_bridge_frame_effect
    (sys : Nat → Nat → Nat → Nat → Nat → Nat → Int) (cr2 envId : Nat)
    (tf : Trapframe) (h : tf.tf_trapno = T_SYSCALL) :
    trap_dispatch sys cr2 envId tf =
      { events := [], tf := syscall_handler sys tf, destroyed := false,
        panicMsg := none } ∧
    (syscall_handler sys tf).tf_regs.reg_eax =
      int32ToReg (sys tf.tf_regs.reg_eax tf.tf_regs.reg_edx tf.tf_regs.reg_ecx
        tf.tf_regs.reg_ebx tf.tf_regs.reg_edi tf.tf_regs.reg_esi) ∧
    (syscall_handler sys tf).tf_regs.reg_edi = tf.tf_regs.reg_edi ∧
    (syscall_handler sys tf).tf_regs.reg_esi = tf.tf_regs.reg_esi ∧
    (syscall_handler sys tf).tf_regs.reg_ebp = tf.tf_regs.reg_ebp ∧
    (syscall_handler sys tf).tf_regs.reg_oesp = tf.tf_regs.reg_oesp ∧
    (syscall_handler sys tf).tf_regs.reg_ebx = tf.tf_regs.reg_ebx ∧
    (syscall_handler sys tf).tf_regs.reg_edx = tf.tf_regs.reg_edx ∧
    (syscall_handler sys tf).tf_regs.reg_ecx = tf.tf_regs.reg_ecx ∧
    (syscall_handler sys tf).tf_es = tf.tf_es ∧
    (syscall_handler sys tf).tf_ds = tf.tf_ds ∧
    (syscall_handler sys tf).tf_trapno = tf.tf_trapno ∧
    (syscall_handler sys tf).tf_err = tf.tf_err ∧
    (syscall_handler sys tf).tf_eip = tf.tf_eip ∧
    (syscall_handler sys tf).tf_cs = tf.tf_cs ∧
    (syscall_handler sys tf).tf_eflags = tf.tf_eflags ∧
    (syscall_handler sys tf).tf_esp = tf.tf_esp ∧
    (syscall_handler sys tf).tf_ss = tf.tf_ss := by
  refine ⟨?_, rfl, rfl, rfl, rfl, rfl, rfl, rfl, rfl, rfl, rfl, rfl, rfl,
    rfl, rfl, rfl, rfl, rfl⟩
  simp [trap_dispatch, h, T_SYSCALL, T_BRKPT, T_PGFLT]

/-- The spec scenario frame: syscall trap, number 5 in eax, arguments 10 and
20 in edx and ecx, remaining arguments 0. -/
def tfSyscallScenario : Trapframe :=
  { baseUserTf with
    tf_trapno := 48,
    tf_regs := { regs0 with reg_eax := 5, reg_edx := 10, reg_ecx := 20 } }

/-- The scenario frame after the bridge wrote back the result 30. -/
def tfSyscallScenarioAfter : Trapframe :=
  { baseUserTf with
    tf_trapno := 48,
    tf_regs := { regs0 with reg_eax := 30, reg_edx := 10, reg_ecx := 20 } }

/-- Witness for C5: the spec scenario — number 5 in eax, arguments 10 and 20
in edx and ecx, implementation returning 30 — sets eax to 30 and changes no
other slot. -/
theorem syscall_bridge_frame_effect_witness :
    (trap_dispatch sys30 0 4096 tfSyscallScenario).tf = tfSyscallScenarioAfter := by
  have h := syscall_bridge_frame_effect sys30 0 4096 tfSyscallScenario rfl
  rw [h.1]
  decide

/-- A kernel-mode page-fault frame (code segment GD_KT, vector 14). -/
def tfKernPgflt : Trapframe := { baseKernTf with tf_trapno := 14 }

/-- C4 counterexample: at a concrete kernel-privilege page fault the handler
does reach the halt path, but with an empty diagnostic stream — no event
names the owning process, the faulting address or the faulting instruction
pointer, contradicting the claimed full diagnostics. -/
theorem kernel_page_fault_no_diagnostics :
    (page_fault_handler 3735928559 4096 tfKernPgflt).panicMsg =
      some "Kernel page fault" ∧
    (page_fault_handler 3735928559 4096 tfKernPgflt).events = [] := by
  decide

/-- C4 (amended): for every page fault whose frame carries kernel privilege
bits, the handler halts at once via panic, destroys no process, emits no
diagnostic event, and leaves the frame unchanged. -/
theorem kernel_page_fault_panics (cr2 envId : Nat) (tf : Trapframe)
    (hcs : tf.tf_cs % 4 = 0) :
    page_fault_handler cr2 envId tf =
      { events := [], tf := tf, destroyed := false,
        panicMsg := some "Kernel page fault" } := by
  simp [page_fault_handler, hcs]

/-- Witness for C4 at the concrete kernel page-fault frame. -/
theorem kernel_page_fault_panics_witness :
    page_fault_handler 0 4096 tfKernPgflt =
      { events := [], tf := tfKernPgflt, destroyed := false,
        panicMsg := some "Kernel page fault" } :=
  kernel_page_fault_panics 0 4096 tfKernPgflt (by decide)

/-- C7: every user-privilege page fault logs the process id, the faulting
address read from the fault-address register, and the faulting instruction
pointer, prints the frame, and then destroys the faulting process — and it
never panics. -/
theorem user_page_fault_terminates (cr2 envId : Nat) (tf : Trapframe)
    (hcs : tf.tf_cs % 4 = 3) :
    page_fault_handler cr2 envId tf =
      { events := [Event.userFaultLog envId cr2 tf.tf_eip,
                   Event.printTrapframe tf, Event.destroyEnv envId],
        tf := tf, destroyed := true, panicMsg := none } := by
  have h0 : tf.tf_cs % 4 ≠ 0 := by omega
  simp [page_fault_handler, h0]

/-- The spec scenario frame: user-privilege page fault at instruction
pointer 0x00801234 (the fault address 0xDEADBEEF lives in cr2). -/
def tfUserPgflt : Trapframe :=
  { baseUserTf with tf_trapno := 14, tf_eip := 8393268 }

/-- Witness for C7: fault address 0xDEADBEEF and instruction pointer
0x00801234 both appear in the diagnostic log, and the process is destroyed. -/
theorem user_page_fault_terminates_witness :
    page_fault_handler 3735928559 4096 tfUserPgflt =
      { events := [Event.userFaultLog 4096 3735928559 8393268,
                   Event.printTrapframe tfUserPgflt, Event.destroyEnv 4096],
        tf := tfUserPgflt, destroyed := true, panicMsg := none } := by
  have h := user_page_fault_terminates 3735928559 4096 tfUserPgflt (by decide)
  rw [h]
  decide

/-- An unhandled trap (vector 2) whose saved code segment 0x10 carries
kernel privilege bits yet differs from the kernel code selector GD_KT. -/
def tfKern16 : Trapframe := { baseKernTf with tf_cs := 16, tf_trapno := 2 }

/-- C1 counterexample: a frame whose code segment indicates kernel privilege
(low two bits zero) but is not the selector GD_KT takes the destroy path, not
the fatal path — the dispatcher compares the whole selector against GD_KT,
not the privilege bits. -/
theorem unhandled_kernel_priv_trap_not_fatal :
    tfKern16.tf_cs % 4 = 0 ∧
    tfKern16.tf_trapno ≠ T_BRKPT ∧ tfKern16.tf_trapno ≠ T_PGFLT ∧
    tfKern16.tf_trapno ≠ T_SYSCALL ∧
    (trap_dispatch sys0 0 4096 tfKern16).panicMsg = none ∧
    (trap_dispatch sys0 0 4096 tfKern16).destroyed = true ∧
    (trap sys0 mach1 tfKern16).outcome = TrapOutcome.scheduled := by
  decide

/-- C1 (amended): for every trap number with no defined handler, if the
frame's saved code segment equals the kernel code selector GD_KT, the
dispatcher prints the full diagnostic frame and panics, and the top-level
entry reaches a halt and never the resume path. -/
theorem unhandled_kernel_trap_fatal
    (sys : Nat → Nat → Nat → Nat → Nat → Nat → Int) (m : Machine)
    (tf : Trapframe) (h3 : tf.tf_trapno ≠ T_BRKPT)
    (h14 : tf.tf_trapno ≠ T_PGFLT) (h48 : tf.tf_trapno ≠ T_SYSCALL)
    (hcs : tf.tf_cs = GD_KT) :
    (∀ cr2 envId, trap_dispatch sys cr2 envId tf =
      { events := [Event.printTrapframe tf], tf := tf, destroyed := false,
        panicMsg := some "unhandled trap in kernel" }) ∧
    (m.eflags &&& FL_IF = 0 →
      (trap sys m tf).outcome =
        TrapOutcome.halted (Halt.panic "unhandled trap in kernel")) ∧
    (∀ e, (trap sys m tf).outcome ≠ TrapOutcome.resumed e) := by
  have hd : ∀ cr2 envId, trap_dispatch sys cr2 envId tf =
      { events := [Event.printTrapframe tf], tf := tf, destroyed := false,
        panicMsg := some "unhandled trap in kernel" } := by
    intro cr2 envId
    simp [trap_dispatch, h3, h14, h48, hcs]
  refine ⟨hd, fun hIF => ?_, fun e => ?_⟩
  · simp [trap, trap_entry, hIF, hcs, GD_KT, hd]
  · by_cases hIF : m.eflags &&& FL_IF = 0
    · simp [trap, trap_entry, hIF, hcs, GD_KT, hd]
    · simp [trap, trap_entry, hIF]

/-- Witness for C1 at a concrete unhandled kernel trap (vector 2 from
GD_KT): the dispatcher panics and trap halts. -/
theorem unhandled_kernel_trap_fatal_witness :
    (trap_dispatch sys0 0 4096 { baseKernTf with tf_trapno := 2 }).panicMsg =
      some "unhandled trap in kernel" ∧
    (trap sys0 mach1 { baseKernTf with tf_trapno := 2 }).outcome =
      TrapOutcome.halted (Halt.panic "unhandled trap in kernel") := by
  have h := unhandled_kernel_trap_fatal sys0 mach1
    { baseKernTf with tf_trapno := 2 } (by decide) (by decide) (by decide)
    (by decide)
  exact ⟨by rw [h.1 0 4096], h.2.1 (by decide)⟩

/-- C6: for every user-origin trap with no defined handler, the dispatcher
prints the frame and destroys the owning process without panicking, and the
top-level entry hands control to the scheduler instead of halting
(terminate is the spec-modelled lifecycle collaborator: the kernel goes on
serving other processes). -/
theorem unhandled_user_trap_destroys
    (sys : Nat → Nat → Nat → Nat → Nat → Nat → Int) (m : Machine)
    (tf : Trapframe) (e : Env) (h3 : tf.tf_trapno ≠ T_BRKPT)
    (h14 : tf.tf_trapno ≠ T_PGFLT) (h48 : tf.tf_trapno ≠ T_SYSCALL)
    (hcs : tf.tf_cs % 4 = 3) (hIF : m.eflags &&& FL_IF = 0)
    (henv : m.curenv = some e) :
    (∀ cr2, trap_dispatch sys cr2 e.env_id tf =
      { events := [Event.printTrapframe tf, Event.destroyEnv e.env_id],
        tf := tf, destroyed := true, panicMsg := none }) ∧
    (trap sys m tf).outcome = TrapOutcome.scheduled ∧
    (∀ hh, (trap sys m tf).outcome ≠ TrapOutcome.halted hh) := by
  have hne : tf.tf_cs ≠ GD_KT := by
    intro hk
    rw [hk] at hcs
    simp [GD_KT] at hcs
  have hd : ∀ cr2, trap_dispatch sys cr2 e.env_id tf =
      { events := [Event.printTrapframe tf, Event.destroyEnv e.env_id],
        tf := tf, destroyed := true, panicMsg := none } := by
    intro cr2
    simp [trap_dispatch, h3, h14, h48, hne]
  have htrap : (trap sys m tf).outcome = TrapOutcome.scheduled := by
    simp [trap, trap_entry, hIF, hcs, henv, hd]
  exact ⟨hd, htrap, fun hh => by rw [htrap]; simp⟩

/-- A user-origin general-protection frame (vector 13, user code selector). -/
def tfUserGpflt : Trapframe := { baseUserTf with tf_trapno := 13 }

/-- Witness for C6 at a concrete user general-protection fault: the process
is destroyed and the kernel schedules instead of halting. -/
theorem unhandled_user_trap_destroys_witness :
    (trap_dispatch sys0 0 env1.env_id tfUserGpflt).destroyed = true ∧
    (trap sys0 mach1 tfUserGpflt).outcome = TrapOutcome.scheduled := by
  have h := unhandled_user_trap_destroys sys0 mach1 tfUserGpflt env1
    (by decide) (by decide) (by decide) (by decide) (by decide) rfl
  exact ⟨by rw [h.1 0], h.2.1⟩

/-- Helper: what the entry protocol produces for a user-origin frame with
interrupts disabled and a current environment. -/
lemma trap_entry_user_eq (m : Machine) (tf0 : Trapframe) (e : Env)
    (hIF : m.eflags &&& FL_IF = 0) (hcs : tf0.tf_cs % 4 = 3)
    (henv : m.curenv = some e) :
    trap_entry m tf0 = Sum.inr
      { machine := { m with
          curenv := some { e with env_tf := tf0 },
          last_tf := some TfRef.envFrame },
        tfRef := TfRef.envFrame, dispatchTf := tf0, envId := e.env_id } := by
  simp [trap_entry, hIF, hcs, henv]

/-- Helper: whatever the dispatcher does, the machine trap ends with keeps
the last-seen-frame reference and the eflags recorded by the entry step. -/
lemma trap_machine_of_entry (sys : Nat → Nat → Nat → Nat → Nat → Nat → Int)
    (m : Machine) (tf0 : Trapframe) (s : EntryState)
    (h : trap_entry m tf0 = Sum.inr s) :
    (trap sys m tf0).machine.last_tf = s.machine.last_tf ∧
    (trap sys m tf0).machine.eflags = s.machine.eflags := by
  unfold trap
  rw [h]
  dsimp only
  constructor <;> (repeat' split) <;> simp

/-- Helper: the entry protocol never touches the CPU eflags. -/
lemma trap_entry_eflags (m : Machine) (tf0 : Trapframe) (s : EntryState)
    (h : trap_entry m tf0 = Sum.inr s) : s.machine.eflags = m.eflags := by
  unfold trap_entry at h
  by_cases hIF : m.eflags &&& FL_IF ≠ 0
  · simp [hIF] at h
  · by_cases hcs : tf0.tf_cs % 4 = 3
    · rcases hc : m.curenv with _ | e
      · simp [hIF, hcs, hc] at h
      · simp [hIF, hcs, hc] at h
        rw [← h]
    · simp [hIF, hcs] at h
      rw [← h]

/-- C2: for a user-origin trap the entry protocol copies the incoming frame,
field for field, into the current process's persistent slot, redirects
dispatch to that persistent copy, and (round trip) a resumable dispatch such
as a breakpoint resumes the process with exactly the copied frame. -/
theorem user_trap_frame_copied (sys : Nat → Nat → Nat → Nat → Nat → Nat → Int)
    (m : Machine) (tf0 : Trapframe) (e : Env)
    (hIF : m.eflags &&& FL_IF = 0) (hcs : tf0.tf_cs % 4 = 3)
    (henv : m.curenv = some e) :
    trap_entry m tf0 = Sum.inr
      { machine := { m with
          curenv := some { e with env_tf := tf0 },
          last_tf := some TfRef.envFrame },
        tfRef := TfRef.envFrame, dispatchTf := tf0, envId := e.env_id } ∧
    (tf0.tf_trapno = T_BRKPT → e.env_status = ENV_RUNNING →
      (trap sys m tf0).outcome = TrapOutcome.resumed { e with env_tf := tf0 }) := by
  refine ⟨trap_entry_user_eq m tf0 e hIF hcs henv, fun hb hr => ?_⟩
  unfold trap
  rw [trap_entry_user_eq m tf0 e hIF hcs henv]
  simp [trap_dispatch, hb, T_BRKPT, hr]

/-- A breakpoint frame arriving from user privilege. -/
def tfUserBrkpt : Trapframe := { baseUserTf with tf_trapno := 3 }

/-- Witness for C2 at a concrete user breakpoint: the persistent copy equals
the incoming frame and the process resumes from that copy. -/
theorem user_trap_frame_copied_witness :
    trap_entry mach1 tfUserBrkpt = Sum.inr
      { machine := { mach1 with
          curenv := some { env1 with env_tf := tfUserBrkpt },
          last_tf := some TfRef.envFrame },
        tfRef := TfRef.envFrame, dispatchTf := tfUserBrkpt,
        envId := env1.env_id } ∧
    (trap sys0 mach1 tfUserBrkpt).outcome =
      TrapOutcome.resumed { env1 with env_tf := tfUserBrkpt } := by
  have h := user_trap_frame_copied sys0 mach1 tfUserBrkpt env1 (by decide)
    (by decide) rfl
  exact ⟨h.1, h.2 rfl rfl⟩

/-- C8: a frame arriving with the CPU interrupt-enable flag set trips the
entry assertion and halts; and dispatch never modifies the interrupt-enable
state — the machine's eflags after trap equal the eflags at entry,
unconditionally. -/
theorem trap_asserts_interrupts_disabled
    (sys : Nat → Nat → Nat → Nat → Nat → Nat → Int) (m : Machine)
    (tf0 : Trapframe) :
    (m.eflags &&& FL_IF ≠ 0 →
      (trap sys m tf0).outcome =
        TrapOutcome.halted (Halt.assertFail AssertId.interruptsOn)) ∧
    (trap sys m tf0).machine.eflags = m.eflags := by
  constructor
  · intro hIF
    simp [trap, trap_entry, hIF]
  · rcases hE : trap_entry m tf0 with hlt | s
    · simp [trap, hE]
    · rw [(trap_machine_of_entry sys m tf0 s hE).2]
      exact trap_entry_eflags m tf0 s hE

/-- Machine state whose live eflags still have FL_IF set at trap entry. -/
def machIF : Machine :=
  { curenv := some env1, last_tf := none, eflags := 512, cr2 := 0 }

/-- Witness for C8: with FL_IF set the entry halts on the assertion, and the
eflags survive unchanged. -/
theorem trap_asserts_interrupts_disabled_witness :
    (trap sys0 machIF tfUserBrkpt).outcome =
      TrapOutcome.halted (Halt.assertFail AssertId.interruptsOn) ∧
    (trap sys0 machIF tfUserBrkpt).machine.eflags = machIF.eflags :=
  ⟨(trap_asserts_interrupts_disabled sys0 machIF tfUserBrkpt).1 (by decide),
   (trap_asserts_interrupts_disabled sys0 machIF tfUserBrkpt).2⟩

/-- C10: after the top-level entry processes a user-origin trap, the
last-seen-frame reference points to the persistent per-process copy and never
to the transient privileged-stack frame. -/
theorem user_trap_last_tf_envframe
    (sys : Nat → Nat → Nat → Nat → Nat → Nat → Int) (m : Machine)
    (tf0 : Trapframe) (e : Env)
    (hIF : m.eflags &&& FL_IF = 0) (hcs : tf0.tf_cs % 4 = 3)
    (henv : m.curenv = some e) :
    (trap sys m tf0).machine.last_tf = some TfRef.envFrame ∧
    (trap sys m tf0).machine.last_tf ≠ some TfRef.stackFrame := by
  have h := (trap_machine_of_entry sys m tf0 _
    (trap_entry_user_eq m tf0 e hIF hcs henv)).1
  constructor
  · rw [h]
  · rw [h]
    simp

/-- Witness for C10 at a concrete user breakpoint trap. -/
theorem user_trap_last_tf_envframe_witness :
    (trap sys0 mach1 tfUserBrkpt).machine.last_tf = some TfRef.envFrame :=
  (user_trap_last_tf_envframe sys0 mach1 tfUserBrkpt env1 (by decide)
    (by decide) rfl).1

end Trap
